import Mathlib

/-!
Shallow embedding of `src/integration.js` (experience-extension-server-util):
the Ethos integration layer with bearer-token acquisition and caching
(`getToken`) and the authenticated operation wrappers (`get`, `post`,
`graphql`).  JavaScript optional/undefined values are modelled as `Option`,
JS objects used as string-keyed dictionaries as association lists, timestamps
as `Int` milliseconds, and the external collaborators (the `got` HTTP client
and the global `JSON.parse` / `JSON.stringify`) as explicit parameters.
Thrown JS errors are modelled with `Except`; since the caller keeps a
reference to the mutated context object even when a call throws, every
operation also returns the final context state and the list of network calls
it issued.
-/

namespace EthosIntegration

/-- JS truthiness of a possibly-undefined string: `undefined` and `""` are falsy. -/
def truthy : Option String → Bool
  | none => false
  | some s => s ≠ ""

/-- The text a JS template literal renders for a possibly-undefined string
(`undefined` renders as "undefined"). -/
def renderOpt : Option String → String
  | none => "undefined"
  | some s => s

/-- JS property-key coercion: `obj[k]` with `k = undefined` accesses the key
"undefined". -/
def keyOf : Option String → String := renderOpt

/-- JSON values, for parsed response bodies, search criteria and request data. -/
inductive Json where
  | null
  | bool (b : Bool)
  | num (n : Int)
  | str (s : String)
  | arr (elems : List Json)
  | obj (fields : List (String × Json))
deriving Repr

/-- JS truthiness of a JSON value. -/
def jsonTruthy : Json → Bool
  | .null => false
  | .bool b => b
  | .num n => n ≠ 0
  | .str s => s ≠ ""
  | .arr _ => true
  | .obj _ => true

/-- Whether `typeof v === "string"` holds for a JSON value. -/
def isJsonString : Json → Bool
  | .str _ => true
  | _ => false

/-- A cached token entry: `{expires, token}` (integration.js lines 85-88). -/
structure CachedToken where
  expires : Int
  token : String
deriving DecidableEq, Repr

/-- The caller-owned context object.  `tokensByApiKey` is `none` until
lazily initialised; the three counters are `none` until first bumped. -/
structure Context where
  tokensByApiKey : Option (List (String × CachedToken)) := none
  ethosGetCount : Option Int := none
  ethosPostCount : Option Int := none
  ethosGraphQLCount : Option Int := none
deriving DecidableEq, Repr

/-- Dictionary lookup on a JS object modelled as an association list. -/
def lookupKey : List (String × CachedToken) → String → Option CachedToken
  | [], _ => none
  | (k, v) :: rest, key => if k = key then some v else lookupKey rest key

/-- Dictionary assignment `m[key] = v` (overwrites an existing entry). -/
def setKey : List (String × CachedToken) → String → CachedToken → List (String × CachedToken)
  | [], key, v => [(key, v)]
  | (k, w) :: rest, key, v =>
    if k = key then (key, v) :: rest else (k, w) :: setKey rest key v

/-- The `options` argument bag: an integration-URL override and header
overrides. -/
structure Options where
  ethosIntegrationUrl : Option String := none
  headers : Option (List (String × String)) := none
deriving DecidableEq, Repr

/-- integration.js lines 17-19: `options.ethosIntegrationUrl ||
process.env.ETHOS_INTEGRATION_URL`.  `env` models the environment variable. -/
def integrationUrl (env : Option String) (options : Option Options) : Option String :=
  let fromOptions := options.bind (fun o => o.ethosIntegrationUrl)
  if truthy fromOptions then fromOptions else env

/-- The errors the module throws, classified by the spec's taxonomy. -/
inductive JsError where
  /-- "Unknown base to buildUrl: ..." -/
  | configurationError (base : String)
  /-- "getToken missing apiKey" / "get: missing resource name" / "post: missing resource name" -/
  | invalidArgument (message : String)
  /-- "Integration Auth failed. response status: ..." -/
  | authenticationError (statusCode : Nat)
  /-- "Integration get/post/GraphQL failed. response status: ..." -/
  | integrationError (operation : String) (statusCode : Nat)
  /-- "get/post/grapql failed to get a token" -/
  | noTokenError (operation : String)
  /-- an exception thrown by `JSON.parse` on the given body -/
  | jsonParseError (body : String)
  /-- a transport failure thrown by the `got` HTTP client -/
  | transportError (message : String)
deriving DecidableEq, Repr

/-- integration.js lines 21-38, `buildUrl({base = 'api', id, options, resource})`.
The template literal renders an undefined `resource` or root as "undefined";
`id` is appended only when truthy. -/
def buildUrl (env : Option String) (base : Option String) (id : Option String)
    (options : Option Options) (resource : Option String) : Except JsError String :=
  let base := base.getD "api"
  let root := renderOpt (integrationUrl env options)
  if base = "admin" ∨ base = "api" then
    .ok (root ++ "/" ++ base ++ "/" ++ renderOpt resource ++
      (if truthy id then "/" ++ renderOpt id else ""))
  else if base = "auth" ∨ base = "graphql" then
    .ok (root ++ "/" ++ base)
  else
    .error (.configurationError base)

/-- The fixed base request headers (integration.js lines 9-14). -/
def baseHeaders : List (String × String) :=
  [("Accept", "application/json"), ("Cache-Control", "no-cache")]

/-- Header assignment `headers[k] = v` (overwrites an existing entry). -/
def setHeader : List (String × String) → String → String → List (String × String)
  | [], k, v => [(k, v)]
  | (k', v') :: rest, k, v =>
    if k' = k then (k, v) :: rest else (k', v') :: setHeader rest k v

/-- `Object.assign(base, overrides)`: later keys overwrite earlier ones. -/
def mergeHeaders (base overrides : List (String × String)) : List (String × String) :=
  overrides.foldl (fun acc kv => setHeader acc kv.1 kv.2) base

/-- The JSON body attached to a request, kept structural: `post` sends the
caller's `data`, `graphql` sends `{query, variables}`. -/
inductive RequestBody where
  | jsonData (data : Option Json)
  | graphqlQuery (query : Option String) (vars : Option Json)
deriving Repr

/-- Query parameters: the `criteria` field (specially normalised by
`get`/`post`) plus any other caller-supplied parameters. -/
structure SearchParams where
  criteria : Option Json := none
  rest : List (String × Json) := []
deriving Repr

/-- A per-call request-options object. -/
structure RequestOptions where
  headers : List (String × String)
  searchParams : Option SearchParams := none
  json : Option RequestBody := none
deriving Repr

/-- integration.js lines 40-48: deep-copy the base template and merge in the
caller's header overrides when present. -/
def createNewRequestOptions (headers : Option (List (String × String))) : RequestOptions :=
  let requestOptions : RequestOptions := { headers := baseHeaders }
  match headers with
  | some hs => { requestOptions with headers := mergeHeaders requestOptions.headers hs }
  | none => requestOptions

/-- integration.js lines 50-52: set `Authorization: Bearer {token}`. -/
def addAuthorization (token : String) (options : RequestOptions) : RequestOptions :=
  { options with headers := setHeader options.headers "Authorization" ("Bearer " ++ token) }

/-- Whether a network call is the token-exchange POST to the `auth` URL or a
regular API request. -/
inductive CallKind where
  | authExchange
  | apiRequest
deriving DecidableEq, Repr

/-- A record of one network call issued through the `got` HTTP client. -/
structure NetCall where
  kind : CallKind
  method : String
  url : String
  requestOptions : RequestOptions
deriving Repr

/-- An HTTP response from the `got` client: status code and raw string body. -/
structure Response where
  statusCode : Nat
  body : String
deriving DecidableEq, Repr

/-- Outcome of one call through the `got` client: a response, or a thrown
transport failure. -/
inductive TransportResult where
  | response (r : Response)
  | failure (message : String)
deriving DecidableEq, Repr

def StatusCodes.OK : Nat := 200

def StatusCodes.CREATED : Nat := 201

/-- The `{context, token}` object `getToken` resolves to. -/
structure TokenResult where
  context : Context
  token : String
deriving DecidableEq, Repr

/-- Full observable effect of a `getToken` call: the settled value (or thrown
error), the caller's context object after the call, and the network calls
issued. -/
structure GetTokenOut where
  result : Except JsError TokenResult
  state : Context
  calls : List NetCall
deriving Repr

/-- The argument bag of `getToken` (integration.js line 54); `context`
defaults to `{}`. -/
structure GetTokenArgs where
  apiKey : Option String := none
  context : Context := {}
  options : Option Options := none
  token : Option String := none
deriving DecidableEq, Repr

/-- Lazy initialisation of `context.tokensByApiKey` (integration.js lines 61-63). -/
def lazyInit (c : Context) : Context :=
  match c.tokensByApiKey with
  | none => { c with tokensByApiKey := some [] }
  | some _ => c

/-- The auth-exchange POST that `getToken` issues on a cache miss
(integration.js lines 74-80). -/
def authNetCall (env : Option String) (args : GetTokenArgs) : NetCall :=
  { kind := .authExchange
    method := "POST"
    url := renderOpt (integrationUrl env args.options) ++ "/" ++ "auth"
    requestOptions := addAuthorization (renderOpt args.apiKey) (createNewRequestOptions none) }

/-- integration.js lines 70-93: the cache-miss tail of `getToken`, entered
with the (lazily initialised) context. -/
def getTokenFetch (now : Int) (env : Option String) (authTransport : TransportResult)
    (args : GetTokenArgs) (context : Context) : GetTokenOut :=
  if ¬ truthy args.apiKey then
    { result := .error (.invalidArgument "getToken missing apiKey")
      state := context, calls := [] }
  else
    match buildUrl env (some "auth") none args.options none with
    | .error e => { result := .error e, state := context, calls := [] }
    | .ok url =>
      let call : NetCall :=
        { kind := .authExchange, method := "POST", url := url
          requestOptions := addAuthorization (renderOpt args.apiKey) (createNewRequestOptions none) }
      match authTransport with
      | .failure msg =>
        { result := .error (.transportError msg), state := context, calls := [call] }
      | .response response =>
        if response.statusCode = StatusCodes.OK then
          let token := response.body
          let expires := now + 5 * 60 * 1000
          let context :=
            { context with
              tokensByApiKey :=
                some (setKey (context.tokensByApiKey.getD []) (keyOf args.apiKey)
                  { expires := expires, token := token }) }
          { result := .ok { context := context, token := token }, state := context, calls := [call] }
        else
          { result := .error (.authenticationError response.statusCode)
            state := context, calls := [call] }

/-- integration.js lines 54-94: `getToken({apiKey, context = {}, options, token})`.
`now` is the timestamp `new Date().getTime()` captured at entry, `env` the
`ETHOS_INTEGRATION_URL` environment variable, `authTransport` the outcome the
`got` client would deliver for the auth POST. -/
def getToken (now : Int) (env : Option String) (authTransport : TransportResult)
    (args : GetTokenArgs) : GetTokenOut :=
  if truthy args.token then
    { result := .ok { context := args.context, token := renderOpt args.token }
      state := args.context, calls := [] }
  else
    let context := lazyInit args.context
    match lookupKey (context.tokensByApiKey.getD []) (keyOf args.apiKey) with
    | some cachedToken =>
      if cachedToken.expires - 30 * 1000 > now then
        { result := .ok { context := context, token := cachedToken.token }
          state := context, calls := [] }
      else
        getTokenFetch now env authTransport args context
    | none => getTokenFetch now env authTransport args context

/-- `context.ethosXCount ? context.ethosXCount + 1 : 1` (JS truthiness: an
absent or zero counter restarts at 1). -/
def bumpCount : Option Int → Int
  | none => 1
  | some n => if n ≠ 0 then n + 1 else 1

/-- Criteria normalisation in `get`/`post` (integration.js lines 103-106,
171-174): a truthy, non-string `searchParams.criteria` is replaced by its
`JSON.stringify` serialisation. -/
def normalizeCriteria (stringify : Json → String) (p : SearchParams) : SearchParams :=
  match p.criteria with
  | some c =>
    if jsonTruthy c ∧ ¬ isJsonString c then { p with criteria := some (.str (stringify c)) }
    else p
  | none => p

/-- A wrapper's settled value: the success object `{context, data}` or the
returned error-result object `{context, error}`. -/
inductive OpOutcome (α : Type) where
  | ok (context : Context) (data : α)
  | errResult (context : Context) (error : JsError)
deriving Repr

/-- Full observable effect of a wrapper call: the settled value (or thrown
error), the caller's context object after the call, and the network calls
issued (the auth exchange's, then the wrapper's own). -/
structure OpOut (α : Type) where
  result : Except JsError (OpOutcome α)
  state : Context
  calls : List NetCall
deriving Repr

/-- The argument bag of `get` (integration.js line 96); destructuring
defaults `base` to "api" and `context` to `{}`. -/
structure GetArgs where
  apiKey : Option String := none
  base : Option String := none
  context : Context := {}
  id : Option String := none
  resource : Option String := none
  searchParams : SearchParams := {}
  token : Option String := none
  options : Option Options := none

/-- The `getToken` argument bag a `get` call passes on (integration.js line 101). -/
def GetArgs.tokenArgs (a : GetArgs) : GetTokenArgs :=
  { apiKey := a.apiKey, context := a.context, options := a.options, token := a.token }

/-- integration.js lines 96-138: `get({apiKey, base = 'api', context = {},
id, resource, searchParams = {}, token, options})`.  `stringify` and
`parseJson` model the global `JSON.stringify` / `JSON.parse` (with `none` for
a `JSON.parse` throw), and `reqTransport` the outcome the `got` client would
deliver for the wrapper's own GET.  The `try` block spans the GET, the
status check and the body parse, so all three failure modes become the
returned error-result. -/
def get (now : Int) (env : Option String) (stringify : Json → String)
    (parseJson : String → Option Json) (authTransport reqTransport : TransportResult)
    (args : GetArgs) : OpOut Json :=
  if ¬ truthy args.resource then
    { result := .error (.invalidArgument "get: missing resource name")
      state := args.context, calls := [] }
  else
    let tokenOut := getToken now env authTransport args.tokenArgs
    match tokenOut.result with
    | .error e => { result := .error e, state := tokenOut.state, calls := tokenOut.calls }
    | .ok tr =>
      let context := tr.context
      let tokenToUse := tr.token
      let searchParams := normalizeCriteria stringify args.searchParams
      if tokenToUse ≠ "" then
        let requestOptions := createNewRequestOptions (args.options.bind (fun o => o.headers))
        let requestOptions := addAuthorization tokenToUse requestOptions
        let requestOptions := { requestOptions with searchParams := some searchParams }
        match buildUrl env (some (args.base.getD "api")) args.id args.options args.resource with
        | .error e => { result := .error e, state := context, calls := tokenOut.calls }
        | .ok url =>
          let context := { context with ethosGetCount := some (bumpCount context.ethosGetCount) }
          let call : NetCall :=
            { kind := .apiRequest, method := "GET", url := url, requestOptions := requestOptions }
          match reqTransport with
          | .failure msg =>
            { result := .ok (.errResult context (.transportError msg))
              state := context, calls := tokenOut.calls ++ [call] }
          | .response response =>
            if response.statusCode = StatusCodes.OK then
              match parseJson response.body with
              | some data =>
                { result := .ok (.ok context data)
                  state := context, calls := tokenOut.calls ++ [call] }
              | none =>
                { result := .ok (.errResult context (.jsonParseError response.body))
                  state := context, calls := tokenOut.calls ++ [call] }
            else
              { result := .ok (.errResult context (.integrationError "get" response.statusCode))
                state := context, calls := tokenOut.calls ++ [call] }
      else
        { result := .error (.noTokenError "get"), state := context, calls := tokenOut.calls }

/-- The argument bag of `post` (integration.js line 164). -/
structure PostArgs where
  apiKey : Option String := none
  base : Option String := none
  context : Context := {}
  data : Option Json := none
  id : Option String := none
  resource : Option String := none
  searchParams : SearchParams := {}
  token : Option String := none
  options : Option Options := none

/-- The `getToken` argument bag a `post` call passes on (integration.js line 169). -/
def PostArgs.tokenArgs (a : PostArgs) : GetTokenArgs :=
  { apiKey := a.apiKey, context := a.context, options := a.options, token := a.token }

/-- integration.js lines 164-208: `post({apiKey, base = 'api', context = {},
data, id, resource, searchParams = {}, token, options})`.  Headers are
`Object.assign({}, options?.headers, {'Content-Type': 'application/json'})`;
success is HTTP 200 or 201; the same `try` block as `get` converts status,
parse and transport failures into the returned error-result. -/
def post (now : Int) (env : Option String) (stringify : Json → String)
    (parseJson : String → Option Json) (authTransport reqTransport : TransportResult)
    (args : PostArgs) : OpOut Json :=
  if ¬ truthy args.resource then
    { result := .error (.invalidArgument "post: missing resource name")
      state := args.context, calls := [] }
  else
    let tokenOut := getToken now env authTransport args.tokenArgs
    match tokenOut.result with
    | .error e => { result := .error e, state := tokenOut.state, calls := tokenOut.calls }
    | .ok tr =>
      let context := tr.context
      let tokenToUse := tr.token
      let searchParams := normalizeCriteria stringify args.searchParams
      if tokenToUse ≠ "" then
        let headers :=
          setHeader (mergeHeaders [] ((args.options.bind (fun o => o.headers)).getD []))
            "Content-Type" "application/json"
        let requestOptions := createNewRequestOptions (some headers)
        let requestOptions := addAuthorization tokenToUse requestOptions
        let requestOptions :=
          { requestOptions with searchParams := some searchParams, json := some (.jsonData args.data) }
        match buildUrl env (some (args.base.getD "api")) args.id args.options args.resource with
        | .error e => { result := .error e, state := context, calls := tokenOut.calls }
        | .ok url =>
          let context := { context with ethosPostCount := some (bumpCount context.ethosPostCount) }
          let call : NetCall :=
            { kind := .apiRequest, method := "POST", url := url, requestOptions := requestOptions }
          match reqTransport with
          | .failure msg =>
            { result := .ok (.errResult context (.transportError msg))
              state := context, calls := tokenOut.calls ++ [call] }
          | .response response =>
            if response.statusCode = StatusCodes.OK ∨ response.statusCode = StatusCodes.CREATED then
              match parseJson response.body with
              | some data =>
                { result := .ok (.ok context data)
                  state := context, calls := tokenOut.calls ++ [call] }
              | none =>
                { result := .ok (.errResult context (.jsonParseError response.body))
                  state := context, calls := tokenOut.calls ++ [call] }
            else
              { result := .ok (.errResult context (.integrationError "post" response.statusCode))
                state := context, calls := tokenOut.calls ++ [call] }
      else
        { result := .error (.noTokenError "post"), state := context, calls := tokenOut.calls }

/-- The argument bag of `graphql` (integration.js line 140). -/
structure GraphqlArgs where
  apiKey : Option String := none
  context : Context := {}
  options : Option Options := none
  query : Option String := none
  token : Option String := none
  vars : Option Json := none

/-- The `getToken` argument bag a `graphql` call passes on (integration.js line 141). -/
def GraphqlArgs.tokenArgs (a : GraphqlArgs) : GetTokenArgs :=
  { apiKey := a.apiKey, context := a.context, options := a.options, token := a.token }

/-- The enumerable own fields the object spread `{context, ...parsed}`
contributes for a parsed JSON value: the top-level fields of an object, and
nothing relevant for the primitives the claims exercise. -/
def spreadFields : Json → List (String × Json)
  | .obj fields => fields
  | _ => []

/-- integration.js lines 140-162: `graphql({apiKey, context = {}, options,
query, token, variables})`.  Unlike `get`/`post` there is no `try` block:
transport failures, the non-200 throw and a `JSON.parse` throw all propagate
to the caller.  The HTTP-200 return `{context, ...JSON.parse(response.body)}`
is modelled as `OpOutcome.ok context (spreadFields parsed)`. -/
def graphql (now : Int) (env : Option String) (parseJson : String → Option Json)
    (authTransport reqTransport : TransportResult) (args : GraphqlArgs) :
    OpOut (List (String × Json)) :=
  let tokenOut := getToken now env authTransport args.tokenArgs
  match tokenOut.result with
  | .error e => { result := .error e, state := tokenOut.state, calls := tokenOut.calls }
  | .ok tr =>
    let context := tr.context
    let tokenToUse := tr.token
    if tokenToUse ≠ "" then
      let requestOptions := createNewRequestOptions (args.options.bind (fun o => o.headers))
      let requestOptions := addAuthorization tokenToUse requestOptions
      let requestOptions :=
        { requestOptions with json := some (.graphqlQuery args.query args.vars) }
      match buildUrl env (some "graphql") none args.options none with
      | .error e => { result := .error e, state := context, calls := tokenOut.calls }
      | .ok url =>
        let context :=
          { context with ethosGraphQLCount := some (bumpCount context.ethosGraphQLCount) }
        let call : NetCall :=
          { kind := .apiRequest, method := "POST", url := url, requestOptions := requestOptions }
        match reqTransport with
        | .failure msg =>
          { result := .error (.transportError msg)
            state := context, calls := tokenOut.calls ++ [call] }
        | .response response =>
          if response.statusCode = StatusCodes.OK then
            match parseJson response.body with
            | some parsed =>
              { result := .ok (.ok context (spreadFields parsed))
                state := context, calls := tokenOut.calls ++ [call] }
            | none =>
              { result := .error (.jsonParseError response.body)
                state := context, calls := tokenOut.calls ++ [call] }
          else
            { result := .error (.integrationError "graphql" response.statusCode)
              state := context, calls := tokenOut.calls ++ [call] }
    else
      { result := .error (.noTokenError "graphql"), state := context, calls := tokenOut.calls }

/-- Decidable form of the cache-hit test of integration.js line 65: the
context has an entry for `apiKey` whose `expires` minus 30s is strictly
beyond `now`. -/
def hasUsableCachedToken (now : Int) (c : Context) (apiKey : Option String) : Bool :=
  match lookupKey (c.tokensByApiKey.getD []) (keyOf apiKey) with
  | some cachedToken => cachedToken.expires - 30 * 1000 > now
  | none => false

/-- The context after the cache store of integration.js lines 84-88: the
lazily initialised input context with `tokensByApiKey[apiKey]` set to the
fresh token and `expires = now + 5 minutes`. -/
def cacheWrite (now : Int) (body : String) (args : GetTokenArgs) : Context :=
  let c := lazyInit args.context
  { c with
    tokensByApiKey :=
      some (setKey (c.tokensByApiKey.getD []) (keyOf args.apiKey)
        { expires := now + 5 * 60 * 1000, token := body }) }

/-- The three per-operation call counters of a context, bundled. -/
def countersOf (c : Context) : Option Int × Option Int × Option Int :=
  (c.ethosGetCount, c.ethosPostCount, c.ethosGraphQLCount)

/-! ## Supporting lemmas -/

theorem lazyInit_getD (c : Context) :
    (lazyInit c).tokensByApiKey.getD [] = c.tokensByApiKey.getD [] := by
  rcases hc : c.tokensByApiKey with _ | m <;> simp [lazyInit, hc]

theorem lazyInit_counters (c : Context) : countersOf (lazyInit c) = countersOf c := by
  rcases hc : c.tokensByApiKey with _ | m <;> simp [lazyInit, hc, countersOf]

theorem lookupKey_setKey (m : List (String × CachedToken)) (k : String) (v : CachedToken) :
    lookupKey (setKey m k v) k = some v := by
  induction m with
  | nil => simp [setKey, lookupKey]
  | cons hd tl ih =>
    obtain ⟨k', w⟩ := hd
    by_cases h : k' = k
    · simp [setKey, h, lookupKey]
    · simp [setKey, h, lookupKey, ih]

theorem buildUrl_auth (env : Option String) (o : Option Options) :
    buildUrl env (some "auth") none o none =
      .ok (renderOpt (integrationUrl env o) ++ "/" ++ "auth") := rfl

theorem buildUrl_graphql (env : Option String) (o : Option Options) :
    buildUrl env (some "graphql") none o none =
      .ok (renderOpt (integrationUrl env o) ++ "/" ++ "graphql") := rfl

/-- Explicit-token short circuit of integration.js lines 55-57. -/
theorem getToken_explicit (now : Int) (env : Option String) (t : TransportResult)
    (args : GetTokenArgs) (h : truthy args.token = true) :
    getToken now env t args =
      { result := .ok { context := args.context, token := renderOpt args.token }
        state := args.context, calls := [] } := by
  unfold getToken
  simp [h]

/-- Without an explicit token and without a usable cached entry, `getToken`
continues into its cache-miss tail on the lazily initialised context. -/
theorem getToken_miss_eq (now : Int) (env : Option String) (t : TransportResult)
    (args : GetTokenArgs) (htok : truthy args.token = false)
    (hmiss : hasUsableCachedToken now args.context args.apiKey = false) :
    getToken now env t args = getTokenFetch now env t args (lazyInit args.context) := by
  unfold getToken
  rw [htok]
  simp only [Bool.false_eq_true, if_false, lazyInit_getD]
  unfold hasUsableCachedToken at hmiss
  rcases hcase : lookupKey (args.context.tokensByApiKey.getD []) (keyOf args.apiKey) with _ | ct
  · simp [hcase]
  · rw [hcase] at hmiss
    simp at hmiss
    simp [hcase, hmiss]

/-! ## Claims -/

/-- C1: a `getToken` call without an explicitly supplied token, on a context
whose cache has an entry for the API key with `expires − 30s` strictly beyond
`now`, resolves to that cached token, issues no network call, and leaves the
caller's context (in particular the cache entry) unchanged. -/
theorem C1_token_cache_hit (now : Int) (env : Option String) (t : TransportResult)
    (args : GetTokenArgs) (m : List (String × CachedToken)) (ct : CachedToken)
    (htok : args.token = none)
    (hmap : args.context.tokensByApiKey = some m)
    (hfound : lookupKey m (keyOf args.apiKey) = some ct)
    (hfresh : ct.expires - 30 * 1000 > now) :
    getToken now env t args =
      { result := .ok { context := args.context, token := ct.token }
        state := args.context, calls := [] } := by
  have hlazy : lazyInit args.context = args.context := by simp [lazyInit, hmap]
  unfold getToken
  rw [htok]
  simp only [truthy, Bool.false_eq_true, if_false, hlazy, hmap, Option.getD_some]
  simp [hfound, hfresh]
  intro hc
  exact absurd hfresh (by omega)

/-- C1 witness: a concrete cache hit. -/
theorem C1_token_cache_hit_witness :
    getToken 0 none (.response { statusCode := 200, body := "x" })
      { apiKey := some "K"
        context := { tokensByApiKey := some [("K", { expires := 100000, token := "tok" })] }
        token := none } =
      { result := .ok
          { context := { tokensByApiKey := some [("K", { expires := 100000, token := "tok" })] }
            token := "tok" }
        state := { tokensByApiKey := some [("K", { expires := 100000, token := "tok" })] }
        calls := [] } :=
  C1_token_cache_hit 0 none (.response { statusCode := 200, body := "x" })
    { apiKey := some "K"
      context := { tokensByApiKey := some [("K", { expires := 100000, token := "tok" })] }
      token := none }
    [("K", { expires := 100000, token := "tok" })]
    { expires := 100000, token := "tok" } rfl rfl rfl (by decide)

/-- C2: a `getToken` call with no explicit token, a present (truthy) API key
and no usable cached entry issues exactly one auth POST; on a 200 response it
resolves to the raw body as the token and stores `{token, expires = now +
300000ms}` under the API key, overwriting any prior entry. -/
theorem C2_token_cache_miss_success (now : Int) (env : Option String) (r : Response)
    (args : GetTokenArgs)
    (htok : args.token = none)
    (hkey : truthy args.apiKey = true)
    (hmiss : hasUsableCachedToken now args.context args.apiKey = false)
    (hstatus : r.statusCode = 200) :
    getToken now env (.response r) args =
      { result := .ok { context := cacheWrite now r.body args, token := r.body }
        state := cacheWrite now r.body args
        calls := [authNetCall env args] } ∧
    lookupKey ((cacheWrite now r.body args).tokensByApiKey.getD []) (keyOf args.apiKey) =
      some { expires := now + 300000, token := r.body } := by
  have htok' : truthy args.token = false := by rw [htok]; rfl
  constructor
  · rw [getToken_miss_eq now env _ args htok' hmiss]
    unfold getTokenFetch
    rw [buildUrl_auth]
    simp [hkey, hstatus, StatusCodes.OK, cacheWrite, authNetCall]
  · simp only [cacheWrite, Option.getD_some, lookupKey_setKey]
    norm_num

/-- C2 witness: a concrete cache miss answered with HTTP 200. -/
theorem C2_token_cache_miss_success_witness :
    getToken 0 (some "R") (.response { statusCode := 200, body := "newtok" })
      { apiKey := some "K" } =
      { result := .ok
          { context := cacheWrite 0 "newtok" { apiKey := some "K" }, token := "newtok" }
        state := cacheWrite 0 "newtok" { apiKey := some "K" }
        calls := [authNetCall (some "R") { apiKey := some "K" }] } ∧
    lookupKey ((cacheWrite 0 "newtok" { apiKey := some "K" }).tokensByApiKey.getD [])
      (keyOf (some "K")) = some { expires := 0 + 300000, token := "newtok" } :=
  C2_token_cache_miss_success 0 (some "R") { statusCode := 200, body := "newtok" }
    { apiKey := some "K" } rfl rfl rfl rfl

/-- C3: with no explicit token and no usable cached entry, `getToken` throws
`InvalidArgument` when the API key is absent (falsy); with a present API key
it throws `AuthenticationError` carrying the status of any non-200 auth
response, never an error-result value, and the cache entry for the API key is
unchanged on that path. -/
theorem C3_token_failure_modes (now : Int) (env : Option String) (t : TransportResult)
    (r : Response) (args : GetTokenArgs)
    (htok : args.token = none)
    (hmiss : hasUsableCachedToken now args.context args.apiKey = false) :
    (truthy args.apiKey = false →
      getToken now env t args =
        { result := .error (.invalidArgument "getToken missing apiKey")
          state := lazyInit args.context, calls := [] }) ∧
    (truthy args.apiKey = true → r.statusCode ≠ 200 →
      getToken now env (.response r) args =
        { result := .error (.authenticationError r.statusCode)
          state := lazyInit args.context, calls := [authNetCall env args] } ∧
      lookupKey ((lazyInit args.context).tokensByApiKey.getD []) (keyOf args.apiKey) =
        lookupKey (args.context.tokensByApiKey.getD []) (keyOf args.apiKey)) := by
  have htok' : truthy args.token = false := by rw [htok]; rfl
  constructor
  · intro hkey
    rw [getToken_miss_eq now env t args htok' hmiss]
    unfold getTokenFetch
    simp [hkey]
  · intro hkey hstat
    refine ⟨?_, by rw [lazyInit_getD]⟩
    rw [getToken_miss_eq now env _ args htok' hmiss]
    unfold getTokenFetch
    rw [buildUrl_auth]
    simp [hkey, hstat, StatusCodes.OK, authNetCall]

/-- C3 witness: a concrete missing-key throw and a concrete 500 auth throw. -/
theorem C3_token_failure_modes_witness :
    getToken 0 none (.response { statusCode := 500, body := "boom" }) { apiKey := none } =
      { result := .error (.invalidArgument "getToken missing apiKey")
        state := { tokensByApiKey := some [] }, calls := [] } ∧
    getToken 0 (some "R") (.response { statusCode := 500, body := "boom" })
      { apiKey := some "K" } =
      { result := .error (.authenticationError 500)
        state := { tokensByApiKey := some [] }
        calls := [authNetCall (some "R") { apiKey := some "K" }] } :=
  ⟨(C3_token_failure_modes 0 none (.response { statusCode := 500, body := "boom" })
      { statusCode := 500, body := "boom" } { apiKey := none } rfl rfl).1 rfl,
   ((C3_token_failure_modes 0 (some "R") (.response { statusCode := 500, body := "boom" })
      { statusCode := 500, body := "boom" } { apiKey := some "K" } rfl rfl).2 rfl
      (by decide)).1⟩


theorem renderOpt_ne_empty {o : Option String} (h : truthy o = true) : renderOpt o ≠ "" := by
  cases o <;> simp [truthy, renderOpt] at *
  exact h

theorem get_explicit_no_auth (now : Int) (env : Option String) (strf : Json → String)
    (pj : String → Option Json) (authT reqT : TransportResult) (ga : GetArgs)
    (h : truthy ga.token = true) :
    (get now env strf pj authT reqT ga).calls.all (fun c => c.kind == CallKind.apiRequest) = true ∧
    (get now env strf pj authT reqT ga).state.tokensByApiKey = ga.context.tokensByApiKey := by
  have hne : renderOpt ga.token ≠ "" := renderOpt_ne_empty h
  unfold get
  by_cases hres : truthy ga.resource = true
  · rw [getToken_explicit now env authT ga.tokenArgs (by simpa [GetArgs.tokenArgs] using h)]
    simp only [GetArgs.tokenArgs]
    simp only [hres]
    rw [if_pos hne]
    rcases hurl : buildUrl env (some (ga.base.getD "api")) ga.id ga.options ga.resource with e | url
    · simp [hurl]
    · simp only [hurl]
      cases reqT with
      | failure msg => simp
      | response r =>
        by_cases hs : r.statusCode = StatusCodes.OK
        · simp only [hs, if_true]
          cases hp : pj r.body <;> simp
        · simp [hs]
  · simp [hres]

theorem post_explicit_no_auth (now : Int) (env : Option String) (strf : Json → String)
    (pj : String → Option Json) (authT reqT : TransportResult) (pa : PostArgs)
    (h : truthy pa.token = true) :
    (post now env strf pj authT reqT pa).calls.all (fun c => c.kind == CallKind.apiRequest) = true ∧
    (post now env strf pj authT reqT pa).state.tokensByApiKey = pa.context.tokensByApiKey := by
  have hne : renderOpt pa.token ≠ "" := renderOpt_ne_empty h
  unfold post
  by_cases hres : truthy pa.resource = true
  · rw [getToken_explicit now env authT pa.tokenArgs (by simpa [PostArgs.tokenArgs] using h)]
    simp only [PostArgs.tokenArgs]
    simp only [hres]
    rw [if_pos hne]
    rcases hurl : buildUrl env (some (pa.base.getD "api")) pa.id pa.options pa.resource with e | url
    · simp [hurl]
    · simp only [hurl]
      cases reqT with
      | failure msg => simp
      | response r =>
        by_cases hs : r.statusCode = StatusCodes.OK ∨ r.statusCode = StatusCodes.CREATED
        · simp only [hs, if_true]
          cases hp : pj r.body <;> simp
        · simp [hs]
  · simp [hres]

theorem graphql_explicit_no_auth (now : Int) (env : Option String)
    (pj : String → Option Json) (authT reqT : TransportResult) (qa : GraphqlArgs)
    (h : truthy qa.token = true) :
    (graphql now env pj authT reqT qa).calls.all (fun c => c.kind == CallKind.apiRequest) = true ∧
    (graphql now env pj authT reqT qa).state.tokensByApiKey = qa.context.tokensByApiKey := by
  have hne : renderOpt qa.token ≠ "" := renderOpt_ne_empty h
  unfold graphql
  rw [getToken_explicit now env authT qa.tokenArgs (by simpa [GraphqlArgs.tokenArgs] using h)]
  simp only [GraphqlArgs.tokenArgs]
  rw [if_pos hne]
  rw [buildUrl_graphql]
  cases reqT with
  | failure msg => simp
  | response r =>
    by_cases hs : r.statusCode = StatusCodes.OK
    · simp only [hs, if_true]
      cases hp : pj r.body <;> simp
    · simp [hs]

/-- C4 counterexample: with the explicitly supplied token value `""` the
claim fails: `getToken` still performs the auth exchange (one network call)
and resolves to the freshly fetched token "newtok", not the supplied token,
and it writes a cache entry. -/
theorem C4_explicit_token_bypass_cex :
    (getToken 0 none (.response { statusCode := 200, body := "newtok" })
      { apiKey := some "K", token := some "" }).calls.length = 1 ∧
    (getToken 0 none (.response { statusCode := 200, body := "newtok" })
      { apiKey := some "K", token := some "" }).result =
      .ok { context := cacheWrite 0 "newtok" { apiKey := some "K", token := some "" }
            token := "newtok" } ∧
    (cacheWrite 0 "newtok" { apiKey := some "K", token := some "" }).tokensByApiKey =
      some [("K", { expires := 300000, token := "newtok" })] ∧
    ("newtok" : String) ≠ "" :=
  ⟨rfl, rfl, rfl, by decide⟩

/-- C4 (amended): with an explicitly supplied non-empty (truthy) token, no
auth exchange is performed by any of the four operations and no cache entry
is written, regardless of context state; `getToken` returns the supplied
token unchanged together with the supplied context. -/
theorem C4_explicit_token_bypass
    (now : Int) (env : Option String) (strf : Json → String) (pj : String → Option Json)
    (authT reqT : TransportResult)
    (ta : GetTokenArgs) (ga : GetArgs) (pa : PostArgs) (qa : GraphqlArgs)
    (hta : truthy ta.token = true) (hga : truthy ga.token = true)
    (hpa : truthy pa.token = true) (hqa : truthy qa.token = true) :
    getToken now env authT ta =
      { result := .ok { context := ta.context, token := renderOpt ta.token }
        state := ta.context, calls := [] } ∧
    ((get now env strf pj authT reqT ga).calls.all
        (fun c => c.kind == CallKind.apiRequest) = true ∧
      (get now env strf pj authT reqT ga).state.tokensByApiKey = ga.context.tokensByApiKey) ∧
    ((post now env strf pj authT reqT pa).calls.all
        (fun c => c.kind == CallKind.apiRequest) = true ∧
      (post now env strf pj authT reqT pa).state.tokensByApiKey = pa.context.tokensByApiKey) ∧
    ((graphql now env pj authT reqT qa).calls.all
        (fun c => c.kind == CallKind.apiRequest) = true ∧
      (graphql now env pj authT reqT qa).state.tokensByApiKey = qa.context.tokensByApiKey) :=
  ⟨getToken_explicit now env authT ta hta,
   get_explicit_no_auth now env strf pj authT reqT ga hga,
   post_explicit_no_auth now env strf pj authT reqT pa hpa,
   graphql_explicit_no_auth now env pj authT reqT qa hqa⟩

/-- C4 witness: concrete calls with explicit token "T". -/
theorem C4_explicit_token_bypass_witness :
    getToken 0 none (.response { statusCode := 200, body := "x" }) { token := some "T" } =
      { result := .ok { context := {}, token := renderOpt (some "T") }
        state := {}, calls := [] } ∧
    ((get 0 none (fun _ => "") (fun _ => none) (.response { statusCode := 200, body := "x" })
        (.response { statusCode := 200, body := "{}" })
        { resource := some "students", token := some "T" }).calls.all
        (fun c => c.kind == CallKind.apiRequest) = true ∧
      (get 0 none (fun _ => "") (fun _ => none) (.response { statusCode := 200, body := "x" })
        (.response { statusCode := 200, body := "{}" })
        { resource := some "students", token := some "T" }).state.tokensByApiKey = none) ∧
    ((post 0 none (fun _ => "") (fun _ => none) (.response { statusCode := 200, body := "x" })
        (.response { statusCode := 200, body := "{}" })
        { resource := some "students", token := some "T" }).calls.all
        (fun c => c.kind == CallKind.apiRequest) = true ∧
      (post 0 none (fun _ => "") (fun _ => none) (.response { statusCode := 200, body := "x" })
        (.response { statusCode := 200, body := "{}" })
        { resource := some "students", token := some "T" }).state.tokensByApiKey = none) ∧
    ((graphql 0 none (fun _ => none) (.response { statusCode := 200, body := "x" })
        (.response { statusCode := 200, body := "{}" })
        { token := some "T" }).calls.all
        (fun c => c.kind == CallKind.apiRequest) = true ∧
      (graphql 0 none (fun _ => none) (.response { statusCode := 200, body := "x" })
        (.response { statusCode := 200, body := "{}" })
        { token := some "T" }).state.tokensByApiKey = none) :=
  C4_explicit_token_bypass 0 none (fun _ => "") (fun _ => none)
    (.response { statusCode := 200, body := "x" }) (.response { statusCode := 200, body := "{}" })
    { token := some "T" } { resource := some "students", token := some "T" }
    { resource := some "students", token := some "T" } { token := some "T" }
    rfl rfl rfl rfl

/-- C5: for `get`/`post` calls with a non-empty resource whose token
resolution succeeds with a usable token and whose target URL builds, a 200
response (200 or 201 for `post`) with a parseable body yields the success
value `{context, data}`, while any other status or a transport failure is
converted into the returned error-result `{context, error}` — the failure
never propagates as a thrown error past the wrapper. -/
theorem C5_get_post_error_containment
    (now : Int) (env : Option String) (strf : Json → String) (pj : String → Option Json)
    (authT : TransportResult) (ga : GetArgs) (pa : PostArgs)
    (gtr ptr : TokenResult) (gurl purl : String)
    (hgres : truthy ga.resource = true)
    (hgtok : (getToken now env authT ga.tokenArgs).result = .ok gtr)
    (hgus : gtr.token ≠ "")
    (hgurl : buildUrl env (some (ga.base.getD "api")) ga.id ga.options ga.resource = .ok gurl)
    (hpres : truthy pa.resource = true)
    (hptok : (getToken now env authT pa.tokenArgs).result = .ok ptr)
    (hpus : ptr.token ≠ "")
    (hpurl : buildUrl env (some (pa.base.getD "api")) pa.id pa.options pa.resource = .ok purl) :
    (∀ (r : Response) (j : Json), r.statusCode = 200 → pj r.body = some j →
      (get now env strf pj authT (.response r) ga).result =
        .ok (.ok (get now env strf pj authT (.response r) ga).state j)) ∧
    (∀ r : Response, r.statusCode ≠ 200 →
      (get now env strf pj authT (.response r) ga).result =
        .ok (.errResult (get now env strf pj authT (.response r) ga).state
          (.integrationError "get" r.statusCode))) ∧
    (∀ msg : String, (get now env strf pj authT (.failure msg) ga).result =
      .ok (.errResult (get now env strf pj authT (.failure msg) ga).state
        (.transportError msg))) ∧
    (∀ (r : Response) (j : Json), r.statusCode = 200 ∨ r.statusCode = 201 → pj r.body = some j →
      (post now env strf pj authT (.response r) pa).result =
        .ok (.ok (post now env strf pj authT (.response r) pa).state j)) ∧
    (∀ r : Response, r.statusCode ≠ 200 → r.statusCode ≠ 201 →
      (post now env strf pj authT (.response r) pa).result =
        .ok (.errResult (post now env strf pj authT (.response r) pa).state
          (.integrationError "post" r.statusCode))) ∧
    (∀ msg : String, (post now env strf pj authT (.failure msg) pa).result =
      .ok (.errResult (post now env strf pj authT (.failure msg) pa).state
        (.transportError msg))) := by
  refine ⟨?_, ?_, ?_, ?_, ?_, ?_⟩
  · intro r j hs hj
    simp [get, hgres, hgtok, hgus, hgurl, hs, hj, StatusCodes.OK]
  · intro r hs
    simp [get, hgres, hgtok, hgus, hgurl, hs, StatusCodes.OK]
  · intro msg
    simp [get, hgres, hgtok, hgus, hgurl]
  · intro r j hs hj
    simp [post, hpres, hptok, hpus, hpurl, hs, hj, StatusCodes.OK, StatusCodes.CREATED]
  · intro r hs hs2
    simp [post, hpres, hptok, hpus, hpurl, hs, hs2, StatusCodes.OK, StatusCodes.CREATED]
  · intro msg
    simp [post, hpres, hptok, hpus, hpurl]

/-- C5 witness: a concrete 404 `get` yielding an error-result and a concrete
201 `post` yielding a success result. -/
theorem C5_get_post_error_containment_witness :
    (get 0 none (fun _ => "") (fun _ => some (Json.obj [])) (.response { statusCode := 200, body := "x" })
        (.response { statusCode := 404, body := "no" })
        { resource := some "students", token := some "T" }).result =
      .ok (.errResult
        (get 0 none (fun _ => "") (fun _ => some (Json.obj [])) (.response { statusCode := 200, body := "x" })
          (.response { statusCode := 404, body := "no" })
          { resource := some "students", token := some "T" }).state
        (.integrationError "get" 404)) ∧
    (post 0 none (fun _ => "") (fun _ => some (Json.obj [])) (.response { statusCode := 200, body := "x" })
        (.response { statusCode := 201, body := "made" })
        { resource := some "students", token := some "T" }).result =
      .ok (.ok
        (post 0 none (fun _ => "") (fun _ => some (Json.obj [])) (.response { statusCode := 200, body := "x" })
          (.response { statusCode := 201, body := "made" })
          { resource := some "students", token := some "T" }).state
        (Json.obj [])) :=
  ⟨(C5_get_post_error_containment 0 none (fun _ => "") (fun _ => some (Json.obj []))
      (.response { statusCode := 200, body := "x" })
      { resource := some "students", token := some "T" }
      { resource := some "students", token := some "T" }
      { context := {}, token := "T" } { context := {}, token := "T" }
      "undefined/api/students" "undefined/api/students"
      rfl rfl (by decide) rfl rfl rfl (by decide) rfl).2.1
      { statusCode := 404, body := "no" } (by decide),
   (C5_get_post_error_containment 0 none (fun _ => "") (fun _ => some (Json.obj []))
      (.response { statusCode := 200, body := "x" })
      { resource := some "students", token := some "T" }
      { resource := some "students", token := some "T" }
      { context := {}, token := "T" } { context := {}, token := "T" }
      "undefined/api/students" "undefined/api/students"
      rfl rfl (by decide) rfl rfl rfl (by decide) rfl).2.2.2.1
      { statusCode := 201, body := "made" } (Json.obj []) (Or.inr rfl) rfl⟩

/-- C6: for a `graphql` call whose token resolution succeeds with a usable
token, a 200 response with a parseable body yields `{context}` merged with
the parsed body's top-level fields, any other status makes the call throw
`IntegrationError`, and `graphql` never returns an error-result object. -/
theorem C6_graphql_policy
    (now : Int) (env : Option String) (pj : String → Option Json)
    (authT : TransportResult) (qa : GraphqlArgs) (qtr : TokenResult)
    (hqtok : (getToken now env authT qa.tokenArgs).result = .ok qtr)
    (hqus : qtr.token ≠ "") :
    (∀ (r : Response) (j : Json), r.statusCode = 200 → pj r.body = some j →
      (graphql now env pj authT (.response r) qa).result =
        .ok (.ok (graphql now env pj authT (.response r) qa).state (spreadFields j))) ∧
    (∀ r : Response, r.statusCode ≠ 200 →
      (graphql now env pj authT (.response r) qa).result =
        .error (.integrationError "graphql" r.statusCode)) ∧
    (∀ (reqT : TransportResult) (c : Context) (e : JsError),
      (graphql now env pj authT reqT qa).result ≠ .ok (.errResult c e)) := by
  refine ⟨?_, ?_, ?_⟩
  · intro r j hs hj
    simp [graphql, hqtok, hqus, hs, hj, StatusCodes.OK, buildUrl_graphql]
  · intro r hs
    simp [graphql, hqtok, hqus, hs, StatusCodes.OK, buildUrl_graphql]
  · intro reqT c e
    unfold graphql
    rcases ht : (getToken now env authT qa.tokenArgs).result with e2 | tr <;> simp only [ht]
    · simp
    · by_cases hu : tr.token ≠ ""
      · rw [if_pos hu, buildUrl_graphql]
        cases reqT with
        | failure msg => simp
        | response r =>
          by_cases hs : r.statusCode = StatusCodes.OK
          · simp only [hs, if_true]
            cases hp : pj r.body <;> simp
          · simp [hs]
      · rw [if_neg hu]
        simp

/-- C6 witness: a concrete 200 merge and a concrete 500 throw. -/
theorem C6_graphql_policy_witness :
    (graphql 0 none (fun _ => some (Json.obj [("data", Json.null)]))
      (.response { statusCode := 200, body := "x" })
      (.response { statusCode := 200, body := "gql" }) { token := some "T" }).result =
      .ok (.ok
        (graphql 0 none (fun _ => some (Json.obj [("data", Json.null)]))
          (.response { statusCode := 200, body := "x" })
          (.response { statusCode := 200, body := "gql" }) { token := some "T" }).state
        (spreadFields (Json.obj [("data", Json.null)]))) ∧
    (graphql 0 none (fun _ => some (Json.obj [("data", Json.null)]))
      (.response { statusCode := 200, body := "x" })
      (.response { statusCode := 500, body := "err" }) { token := some "T" }).result =
      .error (.integrationError "graphql" 500) :=
  ⟨(C6_graphql_policy 0 none (fun _ => some (Json.obj [("data", Json.null)]))
      (.response { statusCode := 200, body := "x" }) { token := some "T" }
      { context := {}, token := "T" } rfl (by decide)).1
      { statusCode := 200, body := "gql" } (Json.obj [("data", Json.null)]) rfl rfl,
   (C6_graphql_policy 0 none (fun _ => some (Json.obj [("data", Json.null)]))
      (.response { statusCode := 200, body := "x" }) { token := some "T" }
      { context := {}, token := "T" } rfl (by decide)).2.1
      { statusCode := 500, body := "err" } (by decide)⟩

/-- C7 counterexample: with the explicitly given (but empty, hence falsy) id
`""`, `buildUrl` does not append the id segment, contradicting the claim
that `/{id}` is appended exactly when an id is given. -/
theorem C7_buildUrl_cex :
    buildUrl (some "R") (some "api") (some "") none (some "students") = .ok "R/api/students" ∧
    ("R/api/students" : String) ≠ "R/api/students/" :=
  ⟨rfl, by decide⟩

/-- C7 (amended): with base "api" or "admin", `buildUrl` returns
`{root}/{base}/{resource}` with `/{id}` appended exactly when a truthy
(non-empty) id is given; with base "auth" or "graphql" it returns
`{root}/{base}` ignoring resource and id; with any other base it throws
`ConfigurationError`. -/
theorem C7_buildUrl (env : Option String) (base : String) (id : Option String)
    (o : Option Options) (resource : String) :
    (base = "api" ∨ base = "admin" →
      buildUrl env (some base) id o (some resource) =
        .ok (renderOpt (integrationUrl env o) ++ "/" ++ base ++ "/" ++ resource ++
          (if truthy id then "/" ++ renderOpt id else ""))) ∧
    (base = "auth" ∨ base = "graphql" →
      ∀ (id2 res2 : Option String), buildUrl env (some base) id2 o res2 =
        .ok (renderOpt (integrationUrl env o) ++ "/" ++ base)) ∧
    (base ≠ "api" → base ≠ "admin" → base ≠ "auth" → base ≠ "graphql" →
      buildUrl env (some base) id o (some resource) = .error (.configurationError base)) := by
  refine ⟨?_, ?_, ?_⟩
  · rintro (rfl | rfl) <;> rfl
  · rintro (rfl | rfl) <;> intro id2 res2 <;> rfl
  · intro h1 h2 h3 h4
    simp [buildUrl, h1, h2, h3, h4]

/-- C7 witness: the three concrete shapes from the spec. -/
theorem C7_buildUrl_witness :
    buildUrl (some "R") (some "api") (some "123") none (some "students") =
      .ok "R/api/students/123" ∧
    buildUrl (some "R") (some "auth") none none none = .ok "R/auth" ∧
    buildUrl (some "R") (some "unknown") none none (some "students") =
      .error (.configurationError "unknown") :=
  ⟨(C7_buildUrl (some "R") "api" (some "123") none "students").1 (Or.inl rfl),
   (C7_buildUrl (some "R") "auth" none none "students").2.1 (Or.inl rfl) none none,
   (C7_buildUrl (some "R") "unknown" none none "students").2.2
     (by decide) (by decide) (by decide) (by decide)⟩

/-- C10: for a 200 response whose body fails to parse as JSON, `get` and
`post` catch the parse failure and return the error-result `{context,
error}`, `graphql` propagates it as a thrown error, and `getToken` is
unaffected since it uses the raw body without parsing. -/
theorem C10_parse_failure_asymmetry :
    (get 0 (some "R") (fun _ => "") (fun _ => none) (.response { statusCode := 200, body := "tok" })
      (.response { statusCode := 200, body := "not json" })
      { resource := some "students", token := some "T" }).result =
      .ok (.errResult
        (get 0 (some "R") (fun _ => "") (fun _ => none) (.response { statusCode := 200, body := "tok" })
          (.response { statusCode := 200, body := "not json" })
          { resource := some "students", token := some "T" }).state
        (.jsonParseError "not json")) ∧
    (post 0 (some "R") (fun _ => "") (fun _ => none) (.response { statusCode := 200, body := "tok" })
      (.response { statusCode := 200, body := "not json" })
      { resource := some "students", token := some "T" }).result =
      .ok (.errResult
        (post 0 (some "R") (fun _ => "") (fun _ => none) (.response { statusCode := 200, body := "tok" })
          (.response { statusCode := 200, body := "not json" })
          { resource := some "students", token := some "T" }).state
        (.jsonParseError "not json")) ∧
    (graphql 0 (some "R") (fun _ => none) (.response { statusCode := 200, body := "tok" })
      (.response { statusCode := 200, body := "not json" }) { token := some "T" }).result =
      .error (.jsonParseError "not json") ∧
    (getToken 0 (some "R") (.response { statusCode := 200, body := "not json" })
      { apiKey := some "K" }).result =
      .ok { context := cacheWrite 0 "not json" { apiKey := some "K" }, token := "not json" } :=
  ⟨rfl, rfl, rfl, rfl⟩

theorem bumpCount_eq (c : Option Int) : bumpCount c = c.getD 0 + 1 := by
  cases c with
  | none => rfl
  | some n => by_cases h : n = 0 <;> simp [bumpCount, h]

theorem getTokenFetch_counters (now : Int) (env : Option String) (t : TransportResult)
    (args : GetTokenArgs) (ctx : Context) :
    countersOf (getTokenFetch now env t args ctx).state = countersOf ctx ∧
    ∀ tr, (getTokenFetch now env t args ctx).result = .ok tr →
      countersOf tr.context = countersOf ctx := by
  unfold getTokenFetch
  by_cases hk : truthy args.apiKey = true
  · simp only [hk]
    rw [buildUrl_auth]
    cases t with
    | failure msg => simp
    | response r =>
      by_cases hs : r.statusCode = StatusCodes.OK
      · simp [hs, countersOf]
      · simp [hs, countersOf]
  · simp [hk, countersOf]

theorem getToken_counters (now : Int) (env : Option String) (t : TransportResult)
    (args : GetTokenArgs) :
    countersOf (getToken now env t args).state = countersOf args.context ∧
    ∀ tr, (getToken now env t args).result = .ok tr →
      countersOf tr.context = countersOf args.context := by
  unfold getToken
  by_cases h : truthy args.token = true
  · simp [h]
  · simp only [h, Bool.false_eq_true, if_false]
    rcases hl : lookupKey ((lazyInit args.context).tokensByApiKey.getD []) (keyOf args.apiKey)
      with _ | ct <;> simp only [hl]
    · have hc := getTokenFetch_counters now env t args (lazyInit args.context)
      exact ⟨hc.1.trans (lazyInit_counters _),
        fun tr htr => (hc.2 tr htr).trans (lazyInit_counters _)⟩
    · by_cases hf : ct.expires - 30 * 1000 > now
      · rw [if_pos hf]
        refine ⟨lazyInit_counters _, fun tr htr => ?_⟩
        simp at htr
        simp [← htr, lazyInit_counters]
      · rw [if_neg hf]
        have hc := getTokenFetch_counters now env t args (lazyInit args.context)
        exact ⟨hc.1.trans (lazyInit_counters _),
          fun tr htr => (hc.2 tr htr).trans (lazyInit_counters _)⟩

/-- C8 counterexample: a `get` call whose token resolution succeeds with the
usable explicit token "T" but whose base "bogus" makes `buildUrl` throw
before the counter bump: the call throws `ConfigurationError` and
`ethosGetCount` is not incremented, contradicting the claim. -/
theorem C8_counter_skip_cex :
    (get 0 none (fun _ => "") (fun _ => none) (.response { statusCode := 200, body := "x" })
      (.response { statusCode := 200, body := "y" })
      { resource := some "students", token := some "T", base := some "bogus" }).result =
      .error (.configurationError "bogus") ∧
    (get 0 none (fun _ => "") (fun _ => none) (.response { statusCode := 200, body := "x" })
      (.response { statusCode := 200, body := "y" })
      { resource := some "students", token := some "T", base := some "bogus" }).state =
      { tokensByApiKey := none, ethosGetCount := none, ethosPostCount := none
        ethosGraphQLCount := none } ∧
    (getToken 0 none (.response { statusCode := 200, body := "x" })
      ({ resource := some "students", token := some "T", base := some "bogus" } : GetArgs).tokenArgs).result =
      .ok { context := {}, token := "T" } :=
  ⟨rfl, rfl, rfl⟩

/-- C8 (amended): when token resolution succeeds with a usable token and the
target-URL construction succeeds (always the case for `graphql`), each
wrapper increments exactly its own per-context counter by exactly one
(treating an absent counter as 0) — including on attempts that fail the
status check — and leaves the other two counters unchanged; when token
resolution fails, no counter changes. -/
theorem C8_counter_discipline
    (now : Int) (env : Option String) (strf : Json → String) (pj : String → Option Json)
    (authT reqT : TransportResult) (ga : GetArgs) (pa : PostArgs) (qa : GraphqlArgs)
    (gtr ptr qtr : TokenResult) (gurl purl : String)
    (hgres : truthy ga.resource = true)
    (hgtok : (getToken now env authT ga.tokenArgs).result = .ok gtr)
    (hgus : gtr.token ≠ "")
    (hgurl : buildUrl env (some (ga.base.getD "api")) ga.id ga.options ga.resource = .ok gurl)
    (hpres : truthy pa.resource = true)
    (hptok : (getToken now env authT pa.tokenArgs).result = .ok ptr)
    (hpus : ptr.token ≠ "")
    (hpurl : buildUrl env (some (pa.base.getD "api")) pa.id pa.options pa.resource = .ok purl)
    (hqtok : (getToken now env authT qa.tokenArgs).result = .ok qtr)
    (hqus : qtr.token ≠ "") :
    countersOf (get now env strf pj authT reqT ga).state =
      (some (ga.context.ethosGetCount.getD 0 + 1), ga.context.ethosPostCount,
        ga.context.ethosGraphQLCount) ∧
    countersOf (post now env strf pj authT reqT pa).state =
      (pa.context.ethosGetCount, some (pa.context.ethosPostCount.getD 0 + 1),
        pa.context.ethosGraphQLCount) ∧
    countersOf (graphql now env pj authT reqT qa).state =
      (qa.context.ethosGetCount, qa.context.ethosPostCount,
        some (qa.context.ethosGraphQLCount.getD 0 + 1)) ∧
    (∀ (ga2 : GetArgs) (e : JsError), (getToken now env authT ga2.tokenArgs).result = .error e →
      countersOf (get now env strf pj authT reqT ga2).state = countersOf ga2.context) ∧
    (∀ (pa2 : PostArgs) (e : JsError), (getToken now env authT pa2.tokenArgs).result = .error e →
      countersOf (post now env strf pj authT reqT pa2).state = countersOf pa2.context) ∧
    (∀ (qa2 : GraphqlArgs) (e : JsError), (getToken now env authT qa2.tokenArgs).result = .error e →
      countersOf (graphql now env pj authT reqT qa2).state = countersOf qa2.context) := by
  have hg := (getToken_counters now env authT ga.tokenArgs).2 gtr hgtok
  have hp := (getToken_counters now env authT pa.tokenArgs).2 ptr hptok
  have hq := (getToken_counters now env authT qa.tokenArgs).2 qtr hqtok
  simp only [countersOf, GetArgs.tokenArgs, PostArgs.tokenArgs, GraphqlArgs.tokenArgs,
    Prod.mk.injEq] at hg hp hq
  obtain ⟨hg1, hg2, hg3⟩ := hg
  obtain ⟨hp1, hp2, hp3⟩ := hp
  obtain ⟨hq1, hq2, hq3⟩ := hq
  refine ⟨?_, ?_, ?_, ?_, ?_, ?_⟩
  · cases reqT with
    | failure msg =>
      simp [get, hgres, hgtok, hgus, hgurl, countersOf, bumpCount_eq, hg1, hg2, hg3]
    | response r =>
      by_cases hs : r.statusCode = StatusCodes.OK
      · cases hpj : pj r.body <;>
          simp [get, hgres, hgtok, hgus, hgurl, hs, hpj, countersOf, bumpCount_eq, hg1, hg2, hg3]
      · simp [get, hgres, hgtok, hgus, hgurl, hs, countersOf, bumpCount_eq, hg1, hg2, hg3]
  · cases reqT with
    | failure msg =>
      simp [post, hpres, hptok, hpus, hpurl, countersOf, bumpCount_eq, hp1, hp2, hp3]
    | response r =>
      by_cases hs : r.statusCode = StatusCodes.OK ∨ r.statusCode = StatusCodes.CREATED
      · cases hpj : pj r.body <;>
          simp [post, hpres, hptok, hpus, hpurl, hs, hpj, countersOf, bumpCount_eq, hp1, hp2, hp3]
      · simp [post, hpres, hptok, hpus, hpurl, hs, countersOf, bumpCount_eq, hp1, hp2, hp3]
  · cases reqT with
    | failure msg =>
      simp [graphql, hqtok, hqus, buildUrl_graphql, countersOf, bumpCount_eq, hq1, hq2, hq3]
    | response r =>
      by_cases hs : r.statusCode = StatusCodes.OK
      · cases hpj : pj r.body <;>
          simp [graphql, hqtok, hqus, buildUrl_graphql, hs, hpj, countersOf, bumpCount_eq,
            hq1, hq2, hq3]
      · simp [graphql, hqtok, hqus, buildUrl_graphql, hs, countersOf, bumpCount_eq, hq1, hq2, hq3]
  · intro ga2 e he
    by_cases hres : truthy ga2.resource = true
    · simp only [get, hres, he]
      simp
      exact (getToken_counters now env authT ga2.tokenArgs).1
    · simp [get, hres]
  · intro pa2 e he
    by_cases hres : truthy pa2.resource = true
    · simp only [post, hres, he]
      simp
      exact (getToken_counters now env authT pa2.tokenArgs).1
    · simp [post, hres]
  · intro qa2 e he
    simp only [graphql, he]
    exact (getToken_counters now env authT qa2.tokenArgs).1

/-- C8 witness: concrete bumps for all three wrappers (on a 200 response)
and a concrete token-resolution failure leaving the counters unchanged. -/
theorem C8_counter_discipline_witness :
    countersOf (get 0 none (fun _ => "") (fun _ => none)
      (.response { statusCode := 200, body := "x" }) (.response { statusCode := 200, body := "y" })
      { resource := some "students", token := some "T" }).state = (some 1, none, none) ∧
    countersOf (post 0 none (fun _ => "") (fun _ => none)
      (.response { statusCode := 200, body := "x" }) (.response { statusCode := 200, body := "y" })
      { resource := some "students", token := some "T" }).state = (none, some 1, none) ∧
    countersOf (graphql 0 none (fun _ => none)
      (.response { statusCode := 200, body := "x" }) (.response { statusCode := 200, body := "y" })
      { token := some "T" }).state = (none, none, some 1) ∧
    countersOf (get 0 none (fun _ => "") (fun _ => none)
      (.response { statusCode := 200, body := "x" }) (.response { statusCode := 200, body := "y" })
      { resource := some "students" }).state = countersOf ({} : Context) :=
  have h := C8_counter_discipline 0 none (fun _ => "") (fun _ => none)
    (.response { statusCode := 200, body := "x" }) (.response { statusCode := 200, body := "y" })
    { resource := some "students", token := some "T" }
    { resource := some "students", token := some "T" } { token := some "T" }
    { context := {}, token := "T" } { context := {}, token := "T" } { context := {}, token := "T" }
    "undefined/api/students" "undefined/api/students"
    rfl rfl (by decide) rfl rfl rfl (by decide) rfl rfl (by decide)
  ⟨h.1, h.2.1, h.2.2.1,
   h.2.2.2.1 { resource := some "students" } (.invalidArgument "getToken missing apiKey") rfl⟩

theorem getTokenFetch_result_state (now : Int) (env : Option String) (t : TransportResult)
    (args : GetTokenArgs) (ctx : Context) :
    ∀ tr, (getTokenFetch now env t args ctx).result = .ok tr →
      tr.context = (getTokenFetch now env t args ctx).state := by
  unfold getTokenFetch
  by_cases hk : truthy args.apiKey = true
  · simp only [hk]
    rw [buildUrl_auth]
    cases t with
    | failure msg => simp
    | response r =>
      by_cases hs : r.statusCode = StatusCodes.OK
      · simp [hs]
      · simp [hs]
  · simp [hk]

theorem getToken_result_state (now : Int) (env : Option String) (t : TransportResult)
    (args : GetTokenArgs) :
    ∀ tr, (getToken now env t args).result = .ok tr →
      tr.context = (getToken now env t args).state := by
  unfold getToken
  by_cases h : truthy args.token = true
  · simp [h]
  · simp only [h, Bool.false_eq_true, if_false]
    rcases hl : lookupKey ((lazyInit args.context).tokensByApiKey.getD []) (keyOf args.apiKey)
      with _ | ct <;> simp only [hl]
    · exact getTokenFetch_result_state now env t args (lazyInit args.context)
    · by_cases hf : ct.expires - 30 * 1000 > now
      · rw [if_pos hf]
        simp
      · rw [if_neg hf]
        exact getTokenFetch_result_state now env t args (lazyInit args.context)

theorem get_result_state (now : Int) (env : Option String) (strf : Json → String)
    (pj : String → Option Json) (authT reqT : TransportResult) (ga : GetArgs) :
    (∀ c d, (get now env strf pj authT reqT ga).result = .ok (.ok c d) →
      c = (get now env strf pj authT reqT ga).state) ∧
    (∀ c e, (get now env strf pj authT reqT ga).result = .ok (.errResult c e) →
      c = (get now env strf pj authT reqT ga).state) := by
  unfold get
  by_cases hres : truthy ga.resource = true
  · simp only [hres]
    rcases ht : (getToken now env authT ga.tokenArgs).result with e2 | tr <;> simp only [ht]
    · simp
    · by_cases hu : tr.token ≠ ""
      · rw [if_pos hu]
        rcases hurl : buildUrl env (some (ga.base.getD "api")) ga.id ga.options ga.resource
          with e3 | url <;> simp only [hurl]
        · simp
        · cases reqT with
          | failure msg => simp
          | response r =>
            by_cases hs : r.statusCode = StatusCodes.OK
            · simp only [hs, if_true]
              cases hpj : pj r.body <;> simp
            · simp [hs]
      · rw [if_neg hu]
        simp
  · simp [hres]

theorem post_result_state (now : Int) (env : Option String) (strf : Json → String)
    (pj : String → Option Json) (authT reqT : TransportResult) (pa : PostArgs) :
    (∀ c d, (post now env strf pj authT reqT pa).result = .ok (.ok c d) →
      c = (post now env strf pj authT reqT pa).state) ∧
    (∀ c e, (post now env strf pj authT reqT pa).result = .ok (.errResult c e) →
      c = (post now env strf pj authT reqT pa).state) := by
  unfold post
  by_cases hres : truthy pa.resource = true
  · simp only [hres]
    rcases ht : (getToken now env authT pa.tokenArgs).result with e2 | tr <;> simp only [ht]
    · simp
    · by_cases hu : tr.token ≠ ""
      · rw [if_pos hu]
        rcases hurl : buildUrl env (some (pa.base.getD "api")) pa.id pa.options pa.resource
          with e3 | url <;> simp only [hurl]
        · simp
        · cases reqT with
          | failure msg => simp
          | response r =>
            by_cases hs : r.statusCode = StatusCodes.OK ∨ r.statusCode = StatusCodes.CREATED
            · simp only [hs, if_true]
              cases hpj : pj r.body <;> simp
            · simp [hs]
      · rw [if_neg hu]
        simp
  · simp [hres]

theorem graphql_result_state (now : Int) (env : Option String)
    (pj : String → Option Json) (authT reqT : TransportResult) (qa : GraphqlArgs) :
    (∀ c d, (graphql now env pj authT reqT qa).result = .ok (.ok c d) →
      c = (graphql now env pj authT reqT qa).state) ∧
    (∀ c e, (graphql now env pj authT reqT qa).result = .ok (.errResult c e) →
      c = (graphql now env pj authT reqT qa).state) := by
  unfold graphql
  rcases ht : (getToken now env authT qa.tokenArgs).result with e2 | tr <;> simp only [ht]
  · simp
  · by_cases hu : tr.token ≠ ""
    · rw [if_pos hu, buildUrl_graphql]
      cases reqT with
      | failure msg => simp
      | response r =>
        by_cases hs : r.statusCode = StatusCodes.OK
        · simp only [hs, if_true]
          cases hpj : pj r.body <;> simp
        · simp [hs]
    · rw [if_neg hu]
      simp

/-- C9: for every operation that returns normally, the context carried in
the returned value is exactly the operation's final context state — the
caller's context threaded through the call (mutated in place in the JS
source), never a copy and never a different value. -/
theorem C9_context_threading
    (now : Int) (env : Option String) (strf : Json → String) (pj : String → Option Json)
    (authT reqT : TransportResult)
    (ta : GetTokenArgs) (ga : GetArgs) (pa : PostArgs) (qa : GraphqlArgs) :
    (∀ tr, (getToken now env authT ta).result = .ok tr →
      tr.context = (getToken now env authT ta).state) ∧
    ((∀ c d, (get now env strf pj authT reqT ga).result = .ok (.ok c d) →
        c = (get now env strf pj authT reqT ga).state) ∧
      (∀ c e, (get now env strf pj authT reqT ga).result = .ok (.errResult c e) →
        c = (get now env strf pj authT reqT ga).state)) ∧
    ((∀ c d, (post now env strf pj authT reqT pa).result = .ok (.ok c d) →
        c = (post now env strf pj authT reqT pa).state) ∧
      (∀ c e, (post now env strf pj authT reqT pa).result = .ok (.errResult c e) →
        c = (post now env strf pj authT reqT pa).state)) ∧
    ((∀ c d, (graphql now env pj authT reqT qa).result = .ok (.ok c d) →
        c = (graphql now env pj authT reqT qa).state) ∧
      (∀ c e, (graphql now env pj authT reqT qa).result = .ok (.errResult c e) →
        c = (graphql now env pj authT reqT qa).state)) :=
  ⟨getToken_result_state now env authT ta,
   get_result_state now env strf pj authT reqT ga,
   post_result_state now env strf pj authT reqT pa,
   graphql_result_state now env pj authT reqT qa⟩

/-- C9 witness: the returned contexts of a concrete `getToken` success and a
concrete `get` error-result coincide with the final state. -/
theorem C9_context_threading_witness :
    ({ context := {}, token := "T" } : TokenResult).context =
      (getToken 0 none (.response { statusCode := 200, body := "x" })
        { token := some "T" }).state ∧
    ({ tokensByApiKey := none, ethosGetCount := some 1, ethosPostCount := none
       ethosGraphQLCount := none } : Context) =
      (get 0 none (fun _ => "") (fun _ => none) (.response { statusCode := 200, body := "x" })
        (.response { statusCode := 404, body := "no" })
        { resource := some "students", token := some "T" }).state :=
  ⟨(C9_context_threading 0 none (fun _ => "") (fun _ => none)
      (.response { statusCode := 200, body := "x" }) (.response { statusCode := 404, body := "no" })
      { token := some "T" } { resource := some "students", token := some "T" }
      { resource := some "students", token := some "T" } { token := some "T" }).1
      { context := {}, token := "T" } rfl,
   (C9_context_threading 0 none (fun _ => "") (fun _ => none)
      (.response { statusCode := 200, body := "x" }) (.response { statusCode := 404, body := "no" })
      { token := some "T" } { resource := some "students", token := some "T" }
      { resource := some "students", token := some "T" } { token := some "T" }).2.1.2
      { tokensByApiKey := none, ethosGetCount := some 1, ethosPostCount := none
        ethosGraphQLCount := none }
      (.integrationError "get" 404) rfl⟩

end EthosIntegration
